import Mathlib

/-!
Verification of the Ward configuration core (`src/ward_security/ward_config.py`):
the `WardConfig` data model, the `WardConfigParser` (`parse_content`,
`generate_content`, `parse_file`) and the `FolderProtector` path-containment
logic.  Python strings are modelled at the code-point level as `String`
(with the operations implemented structurally over `List Char` so that they
evaluate), Python `int` as Lean `Int` (both unbounded), filesystem paths as
an anchor (drive/root) plus a list of path segments, and `open`/`read` as an
`Except` value fed to `parse_file`.
-/

/-! ## Python string primitives -/

/-- Characters treated as whitespace by Python's `str.strip` / `str.split()`. -/
def pyIsSpace (c : Char) : Bool :=
  c == ' ' || c == '\t' || c == '\n' || c == '\r' || c == Char.ofNat 11 || c == Char.ofNat 12

/-- Drop leading whitespace (left half of Python `str.strip`). -/
def stripLeft (l : List Char) : List Char := l.dropWhile pyIsSpace

/-- Drop trailing whitespace (right half of Python `str.strip`). -/
def stripRight (l : List Char) : List Char := (l.reverse.dropWhile pyIsSpace).reverse

/-- Python `str.strip()` on code points. -/
def pyStripL (l : List Char) : List Char := stripRight (stripLeft l)

/-- Python `str.strip()`. -/
def pyStrip (s : String) : String := ⟨pyStripL s.data⟩

/-- Python `str.lower()` (ASCII case mapping; the `.ward` directives are ASCII). -/
def pyLower (s : String) : String := ⟨s.data.map Char.toLower⟩

/-- Split a character list at every separator satisfying `p`, keeping empty
pieces: the semantics of Python `str.split(sep)` for a one-character `sep`. -/
def splitOnP (p : Char → Bool) : List Char → List (List Char)
  | [] => [[]]
  | c :: t =>
    match splitOnP p t with
    | [] => [[c]]
    | h :: r => if p c then [] :: h :: r else (c :: h) :: r

/-- Python `s.split(sep)` for a single-character separator. -/
def splitOnCharL (sep : Char) (l : List Char) : List (List Char) :=
  splitOnP (fun c => c == sep) l

/-- Python `s.split()` (no argument): split on whitespace runs, dropping
empty pieces. -/
def wsSplit (l : List Char) : List (List Char) :=
  (splitOnP pyIsSpace l).filter (fun x => !x.isEmpty)

/-- Well-formed digit run for Python `int()`: digits with single underscores
allowed only between digits.  This checks the part after the first digit. -/
def digitsRest : List Char → Bool
  | [] => true
  | c :: rest =>
    if c.isDigit then digitsRest rest
    else if c == '_' then
      match rest with
      | d :: rest2 => d.isDigit && digitsRest rest2
      | [] => false
    else false

/-- Well-formed digit run for Python `int()`: nonempty, starts with a digit. -/
def digitsOk : List Char → Bool
  | [] => false
  | c :: rest => c.isDigit && digitsRest rest

/-- Numeric value of a digit run (underscores skipped). -/
def digitsVal (l : List Char) : Nat :=
  l.foldl (fun a c => if c.isDigit then a * 10 + (c.toNat - 48) else a) 0

/-- Python `int(s)`: surrounding whitespace stripped, optional sign, decimal
digits (underscores between digits allowed); `none` models `ValueError`. -/
def pyIntL (l : List Char) : Option Int :=
  match pyStripL l with
  | '+' :: rest => if digitsOk rest then some (digitsVal rest : Int) else none
  | '-' :: rest => if digitsOk rest then some (-(digitsVal rest : Int)) else none
  | t => if digitsOk t then some (digitsVal t : Int) else none

/-- Python `str(b)` for a bool: `True` / `False`. -/
def pyBoolStr (b : Bool) : String := if b then "True" else "False"

/-! ## WardConfig data model (`ward_config.py`, class `WardConfig`) -/

/-- The `WardConfig` dataclass.  The `__post_init__` replacement of `None`
lists by `[]` is modelled by giving the list fields the default `[]`. -/
structure WardConfig where
  description : String := ""
  created : Option String := none
  ai_initiated : Bool := false
  password_protected : Bool := false
  whitelist : List String := []
  blacklist : List String := []
  ai_guidance : Bool := true
  protected_folders : List String := []
  shell : Option String := none
  theme : Option String := none
  allow_comments : Bool := false
  max_comments : Int := 5
  comment_prompt : String := ""
  ai_notes : String := ""
deriving DecidableEq, Repr

/-- A fresh `WardConfig()` with every field at its dataclass default. -/
def emptyWardConfig : WardConfig := {}

/-! ## WardConfigParser.parse_content

The source iterates over `content.split('\n')`, strips each line, skips
blank lines and `#` comments, and dispatches on `line.startswith('@key:')`.
Two slices in the source are one character short of their prefix:
`@password_protected:` has 20 characters but the code takes `line[19:]`,
and `@comment_prompt:` has 16 characters but the code takes `line[15:]`.
The embedding reproduces those slice widths exactly. -/

/-- `line[n:].strip().lower() in ['true', 'yes', '1']` on code points. -/
def pyBoolTokenL (l : List Char) : Bool :=
  let t := (pyStripL l).map Char.toLower
  t == "true".data || t == "yes".data || t == "1".data

/-- One iteration of the `parse_content` loop, applied to the already
stripped line (the source does `line = line.strip()` first). -/
def processLineCore (config : WardConfig) (line : List Char) : WardConfig :=
  if line.isEmpty then config
  else if "#".data.isPrefixOf line then config
  else if "@description:".data.isPrefixOf line then
    { config with description := ⟨pyStripL (line.drop 13)⟩ }
  else if "@created:".data.isPrefixOf line then
    { config with created := some ⟨pyStripL (line.drop 9)⟩ }
  else if "@ai_initiated:".data.isPrefixOf line then
    { config with ai_initiated := pyBoolTokenL (line.drop 14) }
  else if "@password_protected:".data.isPrefixOf line then
    { config with password_protected := pyBoolTokenL (line.drop 19) }
  else if "@whitelist:".data.isPrefixOf line then
    { config with whitelist := (wsSplit (line.drop 11)).map (fun item => ⟨pyStripL item⟩) }
  else if "@blacklist:".data.isPrefixOf line then
    { config with blacklist := (wsSplit (line.drop 11)).map (fun item => ⟨pyStripL item⟩) }
  else if "@ai_guidance:".data.isPrefixOf line then
    { config with ai_guidance := pyBoolTokenL (line.drop 13) }
  else if "@protected_folders:".data.isPrefixOf line then
    let folders_str := pyStripL (line.drop 19)
    if folders_str.isEmpty then config
    else
      { config with protected_folders :=
          (splitOnCharL ',' folders_str).map (fun item => ⟨pyStripL item⟩) }
  else if "@shell:".data.isPrefixOf line then
    { config with shell := some ⟨pyStripL (line.drop 7)⟩ }
  else if "@theme:".data.isPrefixOf line then
    { config with theme := some ⟨pyStripL (line.drop 7)⟩ }
  else if "@allow_comments:".data.isPrefixOf line then
    { config with allow_comments := pyBoolTokenL (line.drop 16) }
  else if "@max_comments:".data.isPrefixOf line then
    { config with max_comments :=
        match pyIntL (pyStripL (line.drop 14)) with
        | some n => n
        | none => 5 }
  else if "@comment_prompt:".data.isPrefixOf line then
    { config with comment_prompt := ⟨pyStripL (line.drop 15)⟩ }
  else if "@ai_notes:".data.isPrefixOf line then
    { config with ai_notes := ⟨pyStripL (line.drop 10)⟩ }
  else config

/-- One iteration of the `parse_content` loop on a raw line. -/
def processLine (config : WardConfig) (rawLine : String) : WardConfig :=
  processLineCore config (pyStripL rawLine.data)

/-- The `parse_content` loop over an explicit list of lines. -/
def parse_lines (ls : List String) : WardConfig :=
  ls.foldl processLine emptyWardConfig

/-- `WardConfigParser.parse_content`. -/
def parse_content (content : String) : WardConfig :=
  parse_lines ((splitOnCharL '\n' content.data).map (fun l => (⟨l⟩ : String)))

/-- `WardConfigParser.parse_file`, with the result of `open`+`read` passed in
as an `Except` value: `Except.error` stands for the `IOError` / `OSError` /
`UnicodeDecodeError` cases caught by the source, `Except.ok` for a
successful read of the file content. -/
def parse_file (readResult : Except String String) : Option WardConfig :=
  match readResult with
  | Except.error _ => none
  | Except.ok content => some (parse_content content)

/-! ## WardConfigParser.generate_content -/

/-- `WardConfigParser.generate_content`.  The source inserts
`datetime.now().isoformat()` when `config.created` is falsy; the current
time is passed in as the `now` argument. -/
def generate_content (now : String) (config : WardConfig) : String :=
  let lines : List String :=
    (if config.description != "" then ["@description: " ++ config.description] else [])
    ++ (match config.created with
        | some s => if s != "" then ["@created: " ++ s] else ["@created: " ++ now]
        | none => ["@created: " ++ now])
    ++ ["@ai_initiated: " ++ pyBoolStr config.ai_initiated,
        "@password_protected: " ++ pyBoolStr config.password_protected,
        ""]
    ++ (if config.whitelist.isEmpty then [] else
          ["@whitelist: " ++ String.intercalate " " config.whitelist])
    ++ (if config.blacklist.isEmpty then [] else
          ["@blacklist: " ++ String.intercalate " " config.blacklist])
    ++ ["@ai_guidance: " ++ pyBoolStr config.ai_guidance, ""]
    ++ (if config.protected_folders.isEmpty then [] else
          ["@protected_folders: " ++ String.intercalate "," config.protected_folders, ""])
    ++ (match config.shell with
        | some s => if s != "" then ["@shell: " ++ s] else []
        | none => [])
    ++ (match config.theme with
        | some s => if s != "" then ["@theme: " ++ s] else []
        | none => [])
    ++ ["@allow_comments: " ++ pyBoolStr config.allow_comments,
        "@max_comments: " ++ toString config.max_comments]
    ++ (if config.comment_prompt != "" then ["@comment_prompt: " ++ config.comment_prompt] else [])
    ++ (if config.ai_notes != "" then
          ["", "# AI Operations Guidance", "@ai_notes: " ++ config.ai_notes] else [])
  String.intercalate "\n" lines

/-! ## Filesystem paths and FolderProtector

A canonical-form path (the result of `pathlib.Path(...).resolve()` in the
absence of symlinks) is modelled as an anchor — the drive/root, `"/"` on
POSIX, e.g. `"C:\\"` on Windows — together with the list of path segments.
`Path` string parsing collapses repeated separators and `"."` segments;
`resolve` additionally eliminates `".."` lexically and makes no filesystem
access (the symlink-free case). -/

structure PyPath where
  anchor : String
  segs : List String
deriving DecidableEq, Repr

/-- Parse the segment part of a POSIX path string the way `pathlib` does:
split on `/`, dropping empty segments and `"."`. -/
def parseSegsL (l : List Char) : List String :=
  ((splitOnCharL '/' l).map (fun x => (⟨x⟩ : String))).filter (fun x => x != "" && x != ".")

/-- A POSIX path string as a `PyPath` (anchor `"/"`). -/
def pathOfPosix (s : String) : PyPath := ⟨"/", parseSegsL s.data⟩

/-- `base / child` for a relative or absolute POSIX `child` string:
an absolute child replaces the path, a relative one appends its segments. -/
def pyDiv (base : PyPath) (child : String) : PyPath :=
  if child.data.head? = some '/' then ⟨"/", parseSegsL child.data⟩
  else ⟨base.anchor, base.segs ++ parseSegsL child.data⟩

/-- Lexical `".."` elimination: `acc` is the reversed prefix built so far;
`".."` at the root stays at the root, as `resolve` does. -/
def resolveSegs (acc : List String) : List String → List String
  | [] => acc.reverse
  | s :: rest =>
    if s = ".." then resolveSegs (acc.drop 1) rest
    else resolveSegs (s :: acc) rest

/-- `Path.resolve()` in the symlink-free model: normalize the segments. -/
def PyPath.resolve (p : PyPath) : PyPath := ⟨p.anchor, resolveSegs [] p.segs⟩

/-- `PurePath.is_relative_to`: same anchor and the candidate's segments
extend the other path's segments (equality included). -/
def isRelativeTo (target other : PyPath) : Bool :=
  target.anchor == other.anchor && other.segs.isPrefixOf target.segs

/-- `str(target.relative_to(other))` for a strict descendant: the segments
below `other`, joined with `/`. -/
def relativeStr (target other : PyPath) : String :=
  String.intercalate "/" (target.segs.drop other.segs.length)

/-- The `FolderProtector` class: base path, declared folder names, and the
protected paths resolved once at construction. -/
structure FolderProtector where
  base_path : PyPath
  protected_folders : List String
  protected_paths : List PyPath
deriving DecidableEq, Repr

/-- `FolderProtector.__init__`. -/
def FolderProtector.init (base : PyPath) (folders : List String) : FolderProtector :=
  let b := base.resolve
  ⟨b, folders, folders.map (fun folder => (pyDiv b folder).resolve)⟩

/-- `FolderProtector.is_protected_path`: the membership test followed by the
`is_relative_to` loop (the `ValueError` branch of the source corresponds to
`isRelativeTo` returning `false`). -/
def FolderProtector.is_protected_path (fp : FolderProtector) (file_path : PyPath) : Bool :=
  let target := file_path.resolve
  fp.protected_paths.contains target
    || fp.protected_paths.any (fun pp => isRelativeTo target pp)

/-- The result dictionary of `get_protection_info`.  `isProtected` is the
`"protected"` key, `ptype` the `"type"` key. -/
structure ProtectionInfo where
  isProtected : Bool
  folder : Option String := none
  ptype : Option String := none
  relative_path : Option String := none
  message : String
deriving DecidableEq, Repr

/-- The `for folder_name, protected_path in zip(...)` loop of
`get_protection_info`. -/
def protectionInfoGo (target : PyPath) : List (String × PyPath) → ProtectionInfo
  | [] => ⟨false, none, none, none, "Path is not within any protected folder"⟩
  | (folder_name, pp) :: rest =>
    if target = pp then
      ⟨true, some folder_name, some "direct_match", none,
        "Direct match with protected folder: " ++ folder_name⟩
    else if isRelativeTo target pp then
      ⟨true, some folder_name, some "subfolder", some (relativeStr target pp),
        "Path is within protected folder: " ++ folder_name ++ "/" ++ relativeStr target pp⟩
    else protectionInfoGo target rest

/-- `FolderProtector.get_protection_info`. -/
def FolderProtector.get_protection_info (fp : FolderProtector) (file_path : PyPath) :
    ProtectionInfo :=
  protectionInfoGo file_path.resolve (fp.protected_folders.zip fp.protected_paths)

/-! ## String lemmas for symbolic directive lines -/

theorem stripRight_append (a b : List Char) :
    stripRight (a ++ b) = if stripRight b = [] then stripRight a else a ++ stripRight b := by
  unfold stripRight
  rw [List.reverse_append, List.dropWhile_append]
  rcases h : List.dropWhile pyIsSpace b.reverse with _ | ⟨c, t⟩
  · simp [h]
  · simp [h]

theorem stripRight_snoc_nonspace (l : List Char) (c : Char) (h : pyIsSpace c = false) :
    stripRight (l ++ [c]) = l ++ [c] := by
  unfold stripRight
  rw [List.reverse_append]
  simp [List.dropWhile_cons, h]

theorem stripRight_nil_iff (l : List Char) :
    stripRight l = [] ↔ ∀ c ∈ l, pyIsSpace c = true := by
  unfold stripRight
  rw [List.reverse_eq_nil_iff, List.dropWhile_eq_nil_iff]
  simp

theorem dropWhile_pyIsSpace_idem (l : List Char) :
    List.dropWhile pyIsSpace (List.dropWhile pyIsSpace l) = List.dropWhile pyIsSpace l := by
  induction l with
  | nil => rfl
  | cons c t ih =>
    by_cases h : pyIsSpace c
    · simp [List.dropWhile_cons, h, ih]
    · simp [List.dropWhile_cons, h]

theorem stripRight_idem (l : List Char) : stripRight (stripRight l) = stripRight l := by
  unfold stripRight
  rw [List.reverse_reverse, dropWhile_pyIsSpace_idem]

theorem stripLeft_cons (c : Char) (t : List Char) :
    stripLeft (c :: t) = if pyIsSpace c then stripLeft t else c :: t := by
  by_cases h : pyIsSpace c <;> simp [stripLeft, List.dropWhile_cons, h]

theorem stripRight_single (c : Char) :
    stripRight [c] = if pyIsSpace c then [] else [c] := by
  by_cases h : pyIsSpace c <;> simp [stripRight, List.dropWhile_cons, h]

theorem stripRight_cons (c : Char) (t : List Char) :
    stripRight (c :: t)
      = if stripRight t = [] then (if pyIsSpace c then [] else [c])
        else c :: stripRight t := by
  have : (c :: t) = [c] ++ t := rfl
  rw [this, stripRight_append, stripRight_single]
  rcases h : stripRight t with _ | ⟨d, r⟩ <;> simp

theorem stripLeft_stripRight_comm (l : List Char) :
    stripLeft (stripRight l) = stripRight (stripLeft l) := by
  induction l with
  | nil => rfl
  | cons c t ih =>
    rw [stripRight_cons, stripLeft_cons]
    by_cases hc : pyIsSpace c
    · rcases ht : stripRight t with _ | ⟨d, r⟩
      · rw [ht] at ih
        simp only [if_pos rfl, if_pos hc]
        simpa using ih
      · rw [ht] at ih
        rw [if_neg (by simp), if_pos hc, stripLeft_cons, if_pos hc]
        exact ih
    · rcases ht : stripRight t with _ | ⟨d, r⟩
      · rw [if_pos rfl, if_neg hc, if_neg hc, stripLeft_cons, if_neg hc]
        rw [stripRight_cons, ht, if_pos rfl, if_neg hc]
      · rw [if_neg (by simp), if_neg hc, stripLeft_cons, if_neg hc]
        rw [stripRight_cons, ht, if_neg (by simp)]

theorem pyStripL_nil_of_stripRight_nil (w : List Char) (h : stripRight w = []) :
    pyStripL w = [] := by
  have hall : ∀ c ∈ w, pyIsSpace c = true := (stripRight_nil_iff w).mp h
  have hleft : stripLeft w = [] := by
    rw [stripLeft, List.dropWhile_eq_nil_iff]
    exact hall
  rw [pyStripL, hleft]
  rfl

theorem pyStripL_space_stripRight (w : List Char) :
    pyStripL (' ' :: stripRight w) = pyStripL w := by
  unfold pyStripL
  have h1 : stripLeft (' ' :: stripRight w) = stripLeft (stripRight w) := by
    rw [stripLeft_cons, if_pos (show pyIsSpace ' ' = true from rfl)]
  rw [h1, stripLeft_stripRight_comm, stripRight_idem]

theorem pyBoolTokenL_space_stripRight (w : List Char) :
    pyBoolTokenL (' ' :: stripRight w) = pyBoolTokenL w := by
  unfold pyBoolTokenL
  rw [pyStripL_space_stripRight]

theorem pyBoolTokenL_of_stripRight_nil (w : List Char) (h : stripRight w = []) :
    pyBoolTokenL w = false := by
  unfold pyBoolTokenL
  rw [pyStripL_nil_of_stripRight_nil w h]
  rfl

theorem strip_directive_line (Q w : List Char) :
    pyStripL (('@' :: (Q ++ [':'])) ++ (' ' :: w)) =
      if stripRight w = [] then '@' :: (Q ++ [':'])
      else ('@' :: (Q ++ [':'])) ++ (' ' :: stripRight w) := by
  have hleft : stripLeft (('@' :: (Q ++ [':'])) ++ (' ' :: w))
      = ('@' :: (Q ++ [':'])) ++ (' ' :: w) := rfl
  unfold pyStripL
  rw [hleft, stripRight_append]
  have hsw : stripRight (' ' :: w)
      = if stripRight w = [] then [] else ' ' :: stripRight w := by
    have h0 : (' ' :: w) = [' '] ++ w := rfl
    rw [h0, stripRight_append]
    rcases h : stripRight w with _ | ⟨c, t⟩
    · simp [h]
      decide
    · simp
  rw [hsw]
  rcases h : stripRight w with _ | ⟨c, t⟩
  · simp
    have h1 : stripRight ('@' :: (Q ++ [':'])) = '@' :: (Q ++ [':']) := by
      have h2 := stripRight_snoc_nonspace ('@' :: Q) ':' (by decide)
      simpa using h2
    simpa using h1
  · simp

theorem pyBoolTokenL_colon (x : List Char) : pyBoolTokenL (':' :: x) = false := by
  have hstrip : ∃ y, pyStripL (':' :: x) = ':' :: y := by
    unfold pyStripL
    rw [stripLeft_cons, if_neg (show ¬pyIsSpace ':' = true by decide), stripRight_cons]
    rcases h : stripRight x with _ | ⟨d, r⟩
    · exact ⟨[], by rw [if_pos rfl, if_neg (show ¬pyIsSpace ':' = true by decide)]⟩
    · exact ⟨d :: r, by rw [if_neg (by simp)]⟩
  rcases hstrip with ⟨y, hy⟩
  unfold pyBoolTokenL
  rw [hy]
  rfl

theorem parse_single_ai_initiated (v : String) :
    parse_lines ["@ai_initiated: " ++ v]
      = { emptyWardConfig with ai_initiated := pyBoolTokenL v.data } := by
  have hd : ("@ai_initiated: " ++ v).data
      = ('@' :: ("ai_initiated".data ++ [':'])) ++ (' ' :: v.data) := by
    rw [String.data_append]; rfl
  show processLineCore emptyWardConfig (pyStripL ("@ai_initiated: " ++ v).data) = _
  rw [hd, strip_directive_line]
  rcases h : stripRight v.data with _ | ⟨c, t⟩
  · rw [if_pos rfl, pyBoolTokenL_of_stripRight_nil _ h]
    rfl
  · rw [if_neg (by simp)]
    have e1 : processLineCore emptyWardConfig
        (('@' :: ("ai_initiated".data ++ [':'])) ++ (' ' :: c :: t))
        = { emptyWardConfig with ai_initiated := pyBoolTokenL (' ' :: c :: t) } := rfl
    rw [e1, ← h, pyBoolTokenL_space_stripRight]

theorem parse_single_ai_guidance (v : String) :
    parse_lines ["@ai_guidance: " ++ v]
      = { emptyWardConfig with ai_guidance := pyBoolTokenL v.data } := by
  have hd : ("@ai_guidance: " ++ v).data
      = ('@' :: ("ai_guidance".data ++ [':'])) ++ (' ' :: v.data) := by
    rw [String.data_append]; rfl
  show processLineCore emptyWardConfig (pyStripL ("@ai_guidance: " ++ v).data) = _
  rw [hd, strip_directive_line]
  rcases h : stripRight v.data with _ | ⟨c, t⟩
  · rw [if_pos rfl, pyBoolTokenL_of_stripRight_nil _ h]
    rfl
  · rw [if_neg (by simp)]
    have e1 : processLineCore emptyWardConfig
        (('@' :: ("ai_guidance".data ++ [':'])) ++ (' ' :: c :: t))
        = { emptyWardConfig with ai_guidance := pyBoolTokenL (' ' :: c :: t) } := rfl
    rw [e1, ← h, pyBoolTokenL_space_stripRight]

theorem parse_single_allow_comments (v : String) :
    parse_lines ["@allow_comments: " ++ v]
      = { emptyWardConfig with allow_comments := pyBoolTokenL v.data } := by
  have hd : ("@allow_comments: " ++ v).data
      = ('@' :: ("allow_comments".data ++ [':'])) ++ (' ' :: v.data) := by
    rw [String.data_append]; rfl
  show processLineCore emptyWardConfig (pyStripL ("@allow_comments: " ++ v).data) = _
  rw [hd, strip_directive_line]
  rcases h : stripRight v.data with _ | ⟨c, t⟩
  · rw [if_pos rfl, pyBoolTokenL_of_stripRight_nil _ h]
    rfl
  · rw [if_neg (by simp)]
    have e1 : processLineCore emptyWardConfig
        (('@' :: ("allow_comments".data ++ [':'])) ++ (' ' :: c :: t))
        = { emptyWardConfig with allow_comments := pyBoolTokenL (' ' :: c :: t) } := rfl
    rw [e1, ← h, pyBoolTokenL_space_stripRight]

theorem parse_single_password_protected (v : String) :
    parse_lines ["@password_protected: " ++ v] = emptyWardConfig := by
  have hd : ("@password_protected: " ++ v).data
      = ('@' :: ("password_protected".data ++ [':'])) ++ (' ' :: v.data) := by
    rw [String.data_append]; rfl
  show processLineCore emptyWardConfig (pyStripL ("@password_protected: " ++ v).data) = _
  rw [hd, strip_directive_line]
  rcases h : stripRight v.data with _ | ⟨c, t⟩
  · rw [if_pos rfl]
    rfl
  · rw [if_neg (by simp)]
    have e1 : processLineCore emptyWardConfig
        (('@' :: ("password_protected".data ++ [':'])) ++ (' ' :: c :: t))
        = { emptyWardConfig with password_protected := pyBoolTokenL (':' :: ' ' :: c :: t) } :=
      rfl
    rw [e1, pyBoolTokenL_colon]
    rfl

theorem parse_single_protected_folders (v : String) :
    parse_lines ["@protected_folders: " ++ v]
      = (if (pyStripL v.data).isEmpty then emptyWardConfig
         else { emptyWardConfig with
                protected_folders := List.map (fun item => (⟨pyStripL item⟩ : String)) (splitOnCharL ',' (pyStripL v.data)) }) := by
  have hd : ("@protected_folders: " ++ v).data
      = ('@' :: ("protected_folders".data ++ [':'])) ++ (' ' :: v.data) := by
    rw [String.data_append]; rfl
  show processLineCore emptyWardConfig (pyStripL ("@protected_folders: " ++ v).data) = _
  rw [hd, strip_directive_line]
  rcases h : stripRight v.data with _ | ⟨c, t⟩
  · rw [if_pos rfl, pyStripL_nil_of_stripRight_nil _ h]
    rfl
  · rw [if_neg (by simp)]
    have e1 : processLineCore emptyWardConfig
        (('@' :: ("protected_folders".data ++ [':'])) ++ (' ' :: c :: t))
        = (if (pyStripL (' ' :: c :: t)).isEmpty then emptyWardConfig
           else { emptyWardConfig with
                  protected_folders := List.map (fun item => (⟨pyStripL item⟩ : String)) (splitOnCharL ',' (pyStripL (' ' :: c :: t))) }) := rfl
    rw [e1, ← h, pyStripL_space_stripRight]

theorem parse_single_max_comments (v : String) :
    parse_lines ["@max_comments: " ++ v]
      = { emptyWardConfig with
          max_comments := (match pyIntL (pyStripL v.data) with | some n => n | none => 5) } := by
  have hd : ("@max_comments: " ++ v).data
      = ('@' :: ("max_comments".data ++ [':'])) ++ (' ' :: v.data) := by
    rw [String.data_append]; rfl
  show processLineCore emptyWardConfig (pyStripL ("@max_comments: " ++ v).data) = _
  rw [hd, strip_directive_line]
  rcases h : stripRight v.data with _ | ⟨c, t⟩
  · rw [if_pos rfl, pyStripL_nil_of_stripRight_nil _ h]
    rfl
  · rw [if_neg (by simp)]
    have e1 : processLineCore emptyWardConfig
        (('@' :: ("max_comments".data ++ [':'])) ++ (' ' :: c :: t))
        = { emptyWardConfig with
            max_comments := (match pyIntL (pyStripL (' ' :: c :: t)) with | some n => n | none => 5) } := rfl
    rw [e1, ← h, pyStripL_space_stripRight]

/-! ## Unknown directives are ignored -/

/-- The directive keys `parse_content` recognizes. -/
def knownKeys : List String :=
  ["description", "created", "ai_initiated", "password_protected", "whitelist",
   "blacklist", "ai_guidance", "protected_folders", "shell", "theme",
   "allow_comments", "max_comments", "comment_prompt", "ai_notes"]

theorem colon_prefix_eq (p : List Char) : ∀ (a b : List Char), ':' ∉ p → ':' ∉ a →
    (p ++ [':']).isPrefixOf (a ++ ':' :: b) = true → p = a := by
  induction p with
  | nil =>
    intro a b hp ha h
    cases a with
    | nil => rfl
    | cons c a' =>
      exfalso
      simp only [List.nil_append, List.cons_append, List.isPrefixOf, Bool.and_eq_true] at h
      have hc : ':' = c := eq_of_beq h.1
      exact ha (hc ▸ List.mem_cons_self c a')
  | cons d p' ih =>
    intro a b hp ha h
    cases a with
    | nil =>
      exfalso
      simp only [List.cons_append, List.nil_append, List.isPrefixOf, Bool.and_eq_true] at h
      have hd : d = ':' := eq_of_beq h.1
      exact hp (hd ▸ List.mem_cons_self d p')
    | cons e a' =>
      simp only [List.cons_append, List.isPrefixOf, Bool.and_eq_true] at h
      have hde : d = e := eq_of_beq h.1
      have hpa : p' = a' :=
        ih a' b (fun hm => hp (List.mem_cons_of_mem _ hm))
          (fun hm => ha (List.mem_cons_of_mem _ hm)) h.2
      rw [hde, hpa]

theorem key_prefix_false (p a b : List Char) (hp : ':' ∉ p) (ha : ':' ∉ a) (hne : a ≠ p) :
    (p ++ [':']).isPrefixOf (a ++ ':' :: b) = false := by
  cases hb : (p ++ [':']).isPrefixOf (a ++ ':' :: b) with
  | false => rfl
  | true => exact absurd (colon_prefix_eq p a b hp ha hb).symm hne

theorem string_data_inj {s t : String} (h : s.data = t.data) : s = t := by
  cases s
  cases t
  exact congrArg String.mk h

/-- A stripped line `@key:…` whose key is none of the known directive keys
falls through every branch of the `parse_content` dispatch. -/
theorem processLineCore_unknown (cfg : WardConfig) (key : String) (b : List Char)
    (h1 : ':' ∉ key.data) (h2 : key ∉ knownKeys) :
    processLineCore cfg ('@' :: (key.data ++ ':' :: b)) = cfg := by
  have hne : ∀ k : String, k ∈ knownKeys → key.data ≠ k.data := by
    intro k hk hdata
    exact h2 (string_data_inj hdata ▸ hk)
  have hfalse : ∀ k : String, ':' ∉ k.data → key.data ≠ k.data →
      (('@' :: (k.data ++ [':'])).isPrefixOf ('@' :: (key.data ++ ':' :: b))) = false := by
    intro k hk hkne
    have hstep : (('@' :: (k.data ++ [':'])).isPrefixOf ('@' :: (key.data ++ ':' :: b)))
        = ((k.data ++ [':']).isPrefixOf (key.data ++ ':' :: b)) := by
      simp [List.isPrefixOf]
    rw [hstep]
    exact key_prefix_false k.data key.data b hk h1 hkne
  have c0 : ('@' :: (key.data ++ ':' :: b)).isEmpty = false := rfl
  have c1 : ("#".data).isPrefixOf ('@' :: (key.data ++ ':' :: b)) = false := rfl
  have cDescription : ("@description:".data).isPrefixOf ('@' :: (key.data ++ ':' :: b)) = false :=
    hfalse "description" (by decide) (hne _ (by decide))
  have cCreated : ("@created:".data).isPrefixOf ('@' :: (key.data ++ ':' :: b)) = false :=
    hfalse "created" (by decide) (hne _ (by decide))
  have cAiInitiated : ("@ai_initiated:".data).isPrefixOf ('@' :: (key.data ++ ':' :: b)) = false :=
    hfalse "ai_initiated" (by decide) (hne _ (by decide))
  have cPassword :
      ("@password_protected:".data).isPrefixOf ('@' :: (key.data ++ ':' :: b)) = false :=
    hfalse "password_protected" (by decide) (hne _ (by decide))
  have cWhitelist : ("@whitelist:".data).isPrefixOf ('@' :: (key.data ++ ':' :: b)) = false :=
    hfalse "whitelist" (by decide) (hne _ (by decide))
  have cBlacklist : ("@blacklist:".data).isPrefixOf ('@' :: (key.data ++ ':' :: b)) = false :=
    hfalse "blacklist" (by decide) (hne _ (by decide))
  have cAiGuidance : ("@ai_guidance:".data).isPrefixOf ('@' :: (key.data ++ ':' :: b)) = false :=
    hfalse "ai_guidance" (by decide) (hne _ (by decide))
  have cFolders :
      ("@protected_folders:".data).isPrefixOf ('@' :: (key.data ++ ':' :: b)) = false :=
    hfalse "protected_folders" (by decide) (hne _ (by decide))
  have cShell : ("@shell:".data).isPrefixOf ('@' :: (key.data ++ ':' :: b)) = false :=
    hfalse "shell" (by decide) (hne _ (by decide))
  have cTheme : ("@theme:".data).isPrefixOf ('@' :: (key.data ++ ':' :: b)) = false :=
    hfalse "theme" (by decide) (hne _ (by decide))
  have cAllowComments :
      ("@allow_comments:".data).isPrefixOf ('@' :: (key.data ++ ':' :: b)) = false :=
    hfalse "allow_comments" (by decide) (hne _ (by decide))
  have cMaxComments :
      ("@max_comments:".data).isPrefixOf ('@' :: (key.data ++ ':' :: b)) = false :=
    hfalse "max_comments" (by decide) (hne _ (by decide))
  have cCommentPrompt :
      ("@comment_prompt:".data).isPrefixOf ('@' :: (key.data ++ ':' :: b)) = false :=
    hfalse "comment_prompt" (by decide) (hne _ (by decide))
  have cAiNotes : ("@ai_notes:".data).isPrefixOf ('@' :: (key.data ++ ':' :: b)) = false :=
    hfalse "ai_notes" (by decide) (hne _ (by decide))
  unfold processLineCore
  rw [c0, c1, cDescription, cCreated, cAiInitiated, cPassword, cWhitelist, cBlacklist,
    cAiGuidance, cFolders, cShell, cTheme, cAllowComments, cMaxComments, cCommentPrompt,
    cAiNotes]
  simp

/-- A raw `@key: value` line with an unknown key leaves the config unchanged. -/
theorem processLine_unknown (cfg : WardConfig) (key value : String)
    (h1 : ':' ∉ key.data) (h2 : key ∉ knownKeys) :
    processLine cfg ("@" ++ key ++ ": " ++ value) = cfg := by
  have hd : ("@" ++ key ++ ": " ++ value).data
      = ('@' :: (key.data ++ [':'])) ++ (' ' :: value.data) := by
    rw [String.data_append, String.data_append, String.data_append]
    simp
  show processLineCore cfg (pyStripL ("@" ++ key ++ ": " ++ value).data) = cfg
  rw [hd, strip_directive_line]
  rcases h : stripRight value.data with _ | ⟨c, t⟩
  · rw [if_pos rfl]
    exact processLineCore_unknown cfg key [] h1 h2
  · rw [if_neg (by simp)]
    have hshape : (('@' :: (key.data ++ [':'])) ++ (' ' :: c :: t))
        = '@' :: (key.data ++ ':' :: (' ' :: c :: t)) := by
      simp
    rw [hshape]
    exact processLineCore_unknown cfg key (' ' :: c :: t) h1 h2

/-! ## Path lemmas -/

theorem isRelativeTo_refl (p : PyPath) : isRelativeTo p p = true := by
  unfold isRelativeTo
  rw [Bool.and_eq_true]
  constructor
  · simp
  · exact List.isPrefixOf_iff_prefix.mpr (List.prefix_refl _)

theorem ne_of_isRelativeTo_false {t pp : PyPath} (h : isRelativeTo t pp = false) : t ≠ pp := by
  intro he
  rw [he, isRelativeTo_refl] at h
  exact Bool.noConfusion h

theorem dotdot_not_mem_resolveSegs (l : List String) :
    ∀ acc : List String, ".." ∉ acc → ".." ∉ resolveSegs acc l := by
  induction l with
  | nil =>
    intro acc hacc
    unfold resolveSegs
    simpa using hacc
  | cons s rest ih =>
    intro acc hacc
    unfold resolveSegs
    by_cases hs : s = ".."
    · rw [if_pos hs]
      exact ih _ (fun hm => hacc (List.mem_of_mem_drop hm))
    · rw [if_neg hs]
      refine ih _ ?_
      intro hm
      rcases List.mem_cons.mp hm with h1 | h2
      · exact hs h1.symm
      · exact hacc h2

theorem resolveSegs_of_no_dotdot (l : List String) :
    ∀ acc : List String, ".." ∉ l → resolveSegs acc l = acc.reverse ++ l := by
  induction l with
  | nil =>
    intro acc _
    unfold resolveSegs
    simp
  | cons s rest ih =>
    intro acc hl
    unfold resolveSegs
    rw [if_neg (fun hs => hl (by rw [← hs]; exact List.mem_cons_self s rest))]
    rw [ih (s :: acc) (fun hm => hl (List.mem_cons_of_mem _ hm))]
    simp

theorem resolve_idem (p : PyPath) : p.resolve.resolve = p.resolve := by
  unfold PyPath.resolve
  have h1 : ".." ∉ resolveSegs [] p.segs :=
    dotdot_not_mem_resolveSegs p.segs [] (by simp)
  have h2 := resolveSegs_of_no_dotdot (resolveSegs [] p.segs) [] h1
  simp at h2
  rw [h2]

theorem is_protected_path_iff (base : PyPath) (folders : List String) (p : PyPath) :
    (FolderProtector.init base folders).is_protected_path p = true ↔
      ∃ f ∈ folders, isRelativeTo p.resolve ((pyDiv base.resolve f).resolve) = true := by
  unfold FolderProtector.init FolderProtector.is_protected_path
  simp only [Bool.or_eq_true, List.any_eq_true, List.contains, List.elem_iff, List.mem_map]
  constructor
  · rintro (⟨f, hf, hfeq⟩ | ⟨pp, ⟨f, hf, hfeq⟩, hrel⟩)
    · exact ⟨f, hf, by rw [hfeq, isRelativeTo_refl]⟩
    · exact ⟨f, hf, by rw [hfeq]; exact hrel⟩
  · rintro ⟨f, hf, hrel⟩
    exact Or.inr ⟨(pyDiv base.resolve f).resolve, ⟨f, hf, rfl⟩, hrel⟩

theorem protectionInfoGo_none (t : PyPath) (l : List (String × PyPath))
    (h : ∀ x ∈ l, isRelativeTo t x.2 = false) :
    protectionInfoGo t l
      = ⟨false, none, none, none, "Path is not within any protected folder"⟩ := by
  induction l with
  | nil => rfl
  | cons x rest ih =>
    unfold protectionInfoGo
    have hx : isRelativeTo t x.2 = false := h x (List.mem_cons_self x rest)
    rw [if_neg (ne_of_isRelativeTo_false hx), hx]
    simp only [Bool.false_eq_true, if_false]
    exact ih (fun y hy => h y (List.mem_cons_of_mem _ hy))

theorem protectionInfoGo_first (t : PyPath) (l : List (String × PyPath)) :
    ∀ (i : Nat) (hi : i < l.length),
      (∀ j (hj : j < l.length), j < i → isRelativeTo t (l.get ⟨j, hj⟩).2 = false) →
      isRelativeTo t (l.get ⟨i, hi⟩).2 = true →
      protectionInfoGo t l =
        (if t = (l.get ⟨i, hi⟩).2 then
          ⟨true, some (l.get ⟨i, hi⟩).1, some "direct_match", none,
            "Direct match with protected folder: " ++ (l.get ⟨i, hi⟩).1⟩
        else
          ⟨true, some (l.get ⟨i, hi⟩).1, some "subfolder",
            some (relativeStr t (l.get ⟨i, hi⟩).2),
            "Path is within protected folder: " ++ (l.get ⟨i, hi⟩).1 ++ "/"
              ++ relativeStr t (l.get ⟨i, hi⟩).2⟩) := by
  induction l with
  | nil =>
    intro i hi
    exact absurd hi (by simp)
  | cons x rest ih =>
    intro i hi hfirst hmatch
    cases i with
    | zero =>
      simp only [List.get] at hmatch ⊢
      unfold protectionInfoGo
      by_cases he : t = x.2
      · rw [if_pos he, if_pos he]
      · rw [if_neg he, if_neg he, hmatch]
        simp
    | succ n =>
      have h0 : isRelativeTo t x.2 = false := by
        have := hfirst 0 (by simp) (Nat.succ_pos n)
        simpa [List.get] using this
      simp only [List.get_cons_succ] at hmatch ⊢
      unfold protectionInfoGo
      rw [if_neg (ne_of_isRelativeTo_false h0), h0]
      simp only [Bool.false_eq_true, if_false]
      refine ih n (by simpa using Nat.lt_of_succ_lt_succ hi) ?_ hmatch
      intro j hj hlt
      have := hfirst (j + 1) (by simpa using Nat.succ_lt_succ hj) (Nat.succ_lt_succ hlt)
      simpa [List.get_cons_succ] using this

theorem isRelativeTo_iff (t pp : PyPath) :
    isRelativeTo t pp = true ↔ (t.anchor = pp.anchor ∧ pp.segs <+: t.segs) := by
  unfold isRelativeTo
  rw [Bool.and_eq_true, List.isPrefixOf_iff_prefix]
  simp

theorem string_mk_eq_iff (l : List Char) (s : String) : (⟨l⟩ : String) = s ↔ l = s.data :=
  ⟨fun h => by rw [← h], fun h => string_data_inj h⟩

theorem pyBoolTokenL_eq_true_iff (v : String) :
    pyBoolTokenL v.data = true ↔ pyLower (pyStrip v) ∈ (["true", "yes", "1"] : List String) := by
  unfold pyBoolTokenL pyLower pyStrip
  simp only [List.mem_cons, List.not_mem_nil, or_false, Bool.or_eq_true, beq_iff_eq,
    string_mk_eq_iff]
  rw [or_assoc]

theorem protectionInfoGo_zipmap (t : PyPath) (g : String → PyPath) :
    ∀ (folders : List String) (i : Nat) (hi : i < folders.length),
      (∀ j (hj : j < folders.length), j < i →
        isRelativeTo t (g (folders.get ⟨j, hj⟩)) = false) →
      isRelativeTo t (g (folders.get ⟨i, hi⟩)) = true →
      protectionInfoGo t (folders.zip (folders.map g)) =
        (if t = g (folders.get ⟨i, hi⟩) then
          ⟨true, some (folders.get ⟨i, hi⟩), some "direct_match", none,
            "Direct match with protected folder: " ++ folders.get ⟨i, hi⟩⟩
        else
          ⟨true, some (folders.get ⟨i, hi⟩), some "subfolder",
            some (relativeStr t (g (folders.get ⟨i, hi⟩))),
            "Path is within protected folder: " ++ folders.get ⟨i, hi⟩ ++ "/"
              ++ relativeStr t (g (folders.get ⟨i, hi⟩))⟩) := by
  intro folders
  induction folders with
  | nil =>
    intro i hi
    exact absurd hi (by simp)
  | cons x rest ih =>
    intro i hi hfirst hmatch
    have hzip : (x :: rest).zip (List.map g (x :: rest))
        = (x, g x) :: rest.zip (List.map g rest) := rfl
    rw [hzip]
    cases i with
    | zero =>
      simp only [List.get] at hmatch ⊢
      unfold protectionInfoGo
      by_cases he : t = g x
      · rw [if_pos he, if_pos he]
      · rw [if_neg he, if_neg he, hmatch]
        simp
    | succ n =>
      have h0 : isRelativeTo t (g x) = false := by
        have := hfirst 0 (by simp) (Nat.succ_pos n)
        simpa [List.get] using this
      simp only [List.get_cons_succ] at hmatch ⊢
      unfold protectionInfoGo
      rw [if_neg (ne_of_isRelativeTo_false h0), h0]
      simp only [Bool.false_eq_true, if_false]
      refine ih n (by simpa using Nat.lt_of_succ_lt_succ hi) ?_ hmatch
      intro j hj hlt
      have := hfirst (j + 1) (by simpa using Nat.succ_lt_succ hj) (Nat.succ_lt_succ hlt)
      simpa [List.get_cons_succ] using this

/-! ## Claim theorems -/

/-- The round-trip failing input for claim C1: a config with `created` set
and `password_protected = true`. -/
def roundtripFailingConfig : WardConfig :=
  { created := some "2024-01-01T00:00:00", password_protected := true }

set_option maxRecDepth 4096 in
/-- C1: the round-trip property fails on the code.  For a `WardConfig` with
`created` set and `password_protected = true`, `generate_content` emits
`@password_protected: True`, but `parse_content` slices the line one
character short of the 20-character prefix, tests `: true` against the
boolean tokens, and yields `false`; similarly a nonempty `comment_prompt`
comes back with a spurious `: ` prefix.  So `parse(generate(c))` is not `c`
field-for-field. -/
theorem roundtrip_password_protected_lost :
    (parse_content (generate_content "2025-01-01T00:00:00"
        roundtripFailingConfig)).password_protected = false
    ∧ roundtripFailingConfig.password_protected = true
    ∧ (parse_content (generate_content "2025-01-01T00:00:00"
        { created := some "2024-01-01T00:00:00", comment_prompt := "hello" })).comment_prompt
      = ": hello" :=
  ⟨by decide, by decide, by decide⟩

/-- C2 counterexample: the claim says the complete absence of a boolean
directive line yields `false` for every boolean field, and that the token
rule governs `password_protected`; but parsing the empty file leaves
`ai_guidance` at its dataclass default `true`, and
`@password_protected: true` parses to `false`. -/
theorem bool_directive_counterexample :
    (parse_content "").ai_guidance = true
    ∧ (parse_content "@password_protected: true").password_protected = false :=
  ⟨by decide, by decide⟩

/-- C2 amended: for `ai_initiated` and `allow_comments` the field is `true`
exactly when the directive value, stripped and lowercased, is one of
`true`/`yes`/`1`, and absence yields `false`; `ai_guidance` follows the same
token rule when the line is present, but absence yields its default `true`;
`password_protected` parses to `false` for every value, because the source
slices `line[19:]` although the prefix `@password_protected:` has 20
characters. -/
theorem bool_directive_parsing :
    (∀ v : String,
        ((parse_lines ["@ai_initiated: " ++ v]).ai_initiated = true ↔
          pyLower (pyStrip v) ∈ (["true", "yes", "1"] : List String)))
    ∧ (∀ v : String,
        ((parse_lines ["@allow_comments: " ++ v]).allow_comments = true ↔
          pyLower (pyStrip v) ∈ (["true", "yes", "1"] : List String)))
    ∧ (∀ v : String,
        ((parse_lines ["@ai_guidance: " ++ v]).ai_guidance = true ↔
          pyLower (pyStrip v) ∈ (["true", "yes", "1"] : List String)))
    ∧ (∀ v : String, (parse_lines ["@password_protected: " ++ v]).password_protected = false)
    ∧ (parse_content "").ai_initiated = false
    ∧ (parse_content "").allow_comments = false
    ∧ (parse_content "").password_protected = false
    ∧ (parse_content "").ai_guidance = true := by
  refine ⟨?_, ?_, ?_, ?_, by decide, by decide, by decide, by decide⟩
  · intro v
    rw [parse_single_ai_initiated]
    exact pyBoolTokenL_eq_true_iff v
  · intro v
    rw [parse_single_allow_comments]
    exact pyBoolTokenL_eq_true_iff v
  · intro v
    rw [parse_single_ai_guidance]
    exact pyBoolTokenL_eq_true_iff v
  · intro v
    rw [parse_single_password_protected]
    rfl

/-- C3: `is_protected_path` is true exactly when the canonical form of the
candidate has the same anchor as, and its segments extend the segments of,
the canonical form of `basePath/name` for some declared name (segment
containment, not string prefix); in particular, with base `/proj` and
declared folder `services`, `/proj/services` and `/proj/services/x/y.txt`
are protected while `/proj/services2` is not. -/
theorem is_protected_path_containment :
    (∀ (base : PyPath) (folders : List String) (p : PyPath),
        (FolderProtector.init base folders).is_protected_path p = true ↔
          ∃ f ∈ folders,
            p.resolve.anchor = ((pyDiv base.resolve f).resolve).anchor
            ∧ ((pyDiv base.resolve f).resolve).segs <+: p.resolve.segs)
    ∧ (FolderProtector.init (pathOfPosix "/proj") ["services"]).is_protected_path
        (pathOfPosix "/proj/services") = true
    ∧ (FolderProtector.init (pathOfPosix "/proj") ["services"]).is_protected_path
        (pathOfPosix "/proj/services/x/y.txt") = true
    ∧ (FolderProtector.init (pathOfPosix "/proj") ["services"]).is_protected_path
        (pathOfPosix "/proj/services2") = false := by
  refine ⟨?_, by decide, by decide, by decide⟩
  intro base folders p
  rw [is_protected_path_iff]
  exact exists_congr fun f => and_congr_right fun _ => isRelativeTo_iff _ _

/-- C4: when the `i`-th declared folder is the first (in declaration order)
whose resolved path is ancestor-or-equal of the resolved candidate,
`get_protection_info` reports that folder: `direct_match` on equality, and
otherwise `subfolder` together with the relative path below the folder. -/
theorem get_protection_info_detail (base : PyPath) (folders : List String) (p : PyPath)
    (i : Nat) (hi : i < folders.length)
    (hfirst : ∀ j (hj : j < folders.length), j < i →
      isRelativeTo p.resolve ((pyDiv base.resolve (folders.get ⟨j, hj⟩)).resolve) = false)
    (hmatch : isRelativeTo p.resolve
      ((pyDiv base.resolve (folders.get ⟨i, hi⟩)).resolve) = true) :
    (FolderProtector.init base folders).get_protection_info p =
      (if p.resolve = (pyDiv base.resolve (folders.get ⟨i, hi⟩)).resolve then
        ⟨true, some (folders.get ⟨i, hi⟩), some "direct_match", none,
          "Direct match with protected folder: " ++ folders.get ⟨i, hi⟩⟩
      else
        ⟨true, some (folders.get ⟨i, hi⟩), some "subfolder",
          some (relativeStr p.resolve ((pyDiv base.resolve (folders.get ⟨i, hi⟩)).resolve)),
          "Path is within protected folder: " ++ folders.get ⟨i, hi⟩ ++ "/"
            ++ relativeStr p.resolve ((pyDiv base.resolve (folders.get ⟨i, hi⟩)).resolve)⟩) := by
  show protectionInfoGo p.resolve
      (folders.zip (folders.map (fun folder => (pyDiv base.resolve folder).resolve))) = _
  exact protectionInfoGo_zipmap p.resolve
    (fun folder => (pyDiv base.resolve folder).resolve) folders i hi hfirst hmatch

/-- C4 witness: `/proj/services/sub/file.txt` under declared folder
`services` of base `/proj` is reported as a `subfolder` match with relative
path `sub/file.txt`. -/
theorem get_protection_info_detail_witness :
    (FolderProtector.init (pathOfPosix "/proj") ["services"]).get_protection_info
        (pathOfPosix "/proj/services/sub/file.txt")
      = ⟨true, some "services", some "subfolder", some "sub/file.txt",
          "Path is within protected folder: services/sub/file.txt"⟩ :=
  (get_protection_info_detail (pathOfPosix "/proj") ["services"]
      (pathOfPosix "/proj/services/sub/file.txt") 0 (by decide)
      (fun j hj hlt => absurd hlt (Nat.not_lt_zero j)) (by decide)).trans (by decide)

/-- C5: `parse_content` is total — it returns a `WardConfig` for every input
text — and a `@max_comments:` value on which Python `int()` fails falls back
to the default `5`; in particular `@max_comments: abc` yields `5`. -/
theorem parse_total_max_comments_fallback :
    (∀ content : String, ∃ cfg : WardConfig, parse_content content = cfg)
    ∧ (∀ v : String,
        (parse_lines ["@max_comments: " ++ v]).max_comments
          = (match pyIntL (pyStripL v.data) with | some n => n | none => 5))
    ∧ (parse_content "@max_comments: abc").max_comments = 5 := by
  refine ⟨fun content => ⟨_, rfl⟩, ?_, by decide⟩
  intro v
  rw [parse_single_max_comments]

/-- C6: `parse_file` returns `none` whenever reading the file fails with one
of the caught errors, and on a successful read returns the parse of the
content. -/
theorem parse_file_none_on_error :
    (∀ e : String, parse_file (Except.error e) = none)
    ∧ (∀ content : String, parse_file (Except.ok content) = some (parse_content content)) :=
  ⟨fun _ => rfl, fun _ => rfl⟩

/-- C7: a `@protected_folders:` directive splits its value on commas and
strips whitespace from each entry, and an empty value after the colon
leaves the list empty rather than `[""]`. -/
theorem protected_folders_comma_split :
    (∀ v : String,
        (parse_lines ["@protected_folders: " ++ v]).protected_folders
          = (if (pyStripL v.data).isEmpty then []
             else List.map (fun item => (⟨pyStripL item⟩ : String))
               (splitOnCharL ',' (pyStripL v.data))))
    ∧ (parse_content "@protected_folders: services, mappers ,repositories").protected_folders
        = ["services", "mappers", "repositories"]
    ∧ (parse_content "@protected_folders:").protected_folders = [] := by
  refine ⟨?_, by decide, by decide⟩
  intro v
  rw [parse_single_protected_folders]
  by_cases h : (pyStripL v.data).isEmpty <;> simp [h, emptyWardConfig]

/-- C8: a candidate whose resolved anchor (drive/root) differs from that of
every resolved protected path — the cross-device case — is reported as not
protected by both `is_protected_path` and `get_protection_info`. -/
theorem cross_device_not_protected (base : PyPath) (folders : List String) (p : PyPath)
    (h : ∀ pp ∈ (FolderProtector.init base folders).protected_paths,
      p.resolve.anchor ≠ pp.anchor) :
    (FolderProtector.init base folders).is_protected_path p = false
    ∧ ((FolderProtector.init base folders).get_protection_info p).isProtected = false := by
  have hrel : ∀ pp ∈ (FolderProtector.init base folders).protected_paths,
      isRelativeTo p.resolve pp = false := by
    intro pp hpp
    have hne := h pp hpp
    unfold isRelativeTo
    have hbeq : (p.resolve.anchor == pp.anchor) = false := by
      rw [beq_eq_false_iff_ne]
      exact hne
    rw [hbeq]
    rfl
  constructor
  · have hc : ((FolderProtector.init base folders).protected_paths).contains p.resolve
        = false := by
      cases hx : ((FolderProtector.init base folders).protected_paths).contains p.resolve with
      | false => rfl
      | true =>
        exact absurd rfl (h _ (List.elem_iff.mp hx))
    have ha : ((FolderProtector.init base folders).protected_paths).any
        (fun pp => isRelativeTo p.resolve pp) = false :=
      List.any_eq_false.mpr (fun pp hpp => by rw [hrel pp hpp]; exact Bool.noConfusion)
    show ((FolderProtector.init base folders).protected_paths.contains p.resolve
        || (FolderProtector.init base folders).protected_paths.any
             (fun pp => isRelativeTo p.resolve pp)) = false
    rw [hc, ha]
    rfl
  · have hgo := protectionInfoGo_none p.resolve
      ((FolderProtector.init base folders).protected_folders.zip
        (FolderProtector.init base folders).protected_paths)
      (by
        intro x hx
        obtain ⟨a, b⟩ := x
        exact hrel b (List.of_mem_zip hx).2)
    show (protectionInfoGo p.resolve
        ((FolderProtector.init base folders).protected_folders.zip
          (FolderProtector.init base folders).protected_paths)).isProtected = false
    rw [hgo]

/-- C8 witness: with base drive `C:` and candidate drive `D:`, both checks
report not protected. -/
theorem cross_device_not_protected_witness :
    (FolderProtector.init ⟨"C:\x5c", ["proj"]⟩ ["services"]).is_protected_path
        ⟨"D:\x5c", ["proj", "services"]⟩ = false
    ∧ ((FolderProtector.init ⟨"C:\x5c", ["proj"]⟩ ["services"]).get_protection_info
        ⟨"D:\x5c", ["proj", "services"]⟩).isProtected = false :=
  cross_device_not_protected _ _ _ (by decide)

/-- C9: inserting a `@key: value` line whose key (colon-free) is none of the
known directive keys leaves the parse result unchanged. -/
theorem unknown_directive_ignored (key value : String) (pre post : List String)
    (h1 : ':' ∉ key.data) (h2 : key ∉ knownKeys) :
    parse_lines (pre ++ ("@" ++ key ++ ": " ++ value) :: post) = parse_lines (pre ++ post) := by
  unfold parse_lines
  rw [List.foldl_append, List.foldl_append, List.foldl_cons,
    processLine_unknown _ _ _ h1 h2]

/-- C9 witness: `@unknown_key: value` between two known directives changes
nothing. -/
theorem unknown_directive_ignored_witness :
    ':' ∉ ("unknown_key" : String).data
    ∧ ("unknown_key" : String) ∉ knownKeys
    ∧ parse_lines
        (["@description: d"] ++ ("@" ++ "unknown_key" ++ ": " ++ "value") :: ["@ai_notes: n"])
      = parse_lines (["@description: d"] ++ ["@ai_notes: n"]) :=
  ⟨by decide, by decide,
    unknown_directive_ignored "unknown_key" "value" ["@description: d"] ["@ai_notes: n"]
      (by decide) (by decide)⟩

/-- C10: an empty string among the declared folder names (which
`parse_content` produces for a trailing comma, e.g. `services,`) resolves to
the base path itself, so every candidate at or under the base is reported
protected. -/
theorem empty_folder_name_protects_base (base : PyPath) (folders : List String) (p : PyPath)
    (h1 : "" ∈ folders) (h2 : isRelativeTo p.resolve base.resolve = true) :
    (FolderProtector.init base folders).is_protected_path p = true
    ∧ (parse_content "@protected_folders: services,").protected_folders = ["services", ""] := by
  refine ⟨?_, by decide⟩
  rw [is_protected_path_iff]
  refine ⟨"", h1, ?_⟩
  have hdiv : pyDiv base.resolve "" = base.resolve := by
    unfold pyDiv
    rw [if_neg (by decide)]
    rw [show parseSegsL "".data = [] from rfl, List.append_nil]
  rw [hdiv, resolve_idem]
  exact h2

/-- C10 witness: base `/proj`, folders `["services", ""]`, candidate
`/proj/x/y`. -/
theorem empty_folder_name_protects_base_witness :
    ("" ∈ ["services", ""])
    ∧ isRelativeTo (pathOfPosix "/proj/x/y").resolve (pathOfPosix "/proj").resolve = true
    ∧ (FolderProtector.init (pathOfPosix "/proj") ["services", ""]).is_protected_path
        (pathOfPosix "/proj/x/y") = true :=
  ⟨by decide, by decide,
    (empty_folder_name_protects_base (pathOfPosix "/proj") ["services", ""]
      (pathOfPosix "/proj/x/y") (by decide) (by decide)).1⟩
